import Mathlib

/-!
Shallow embedding of the behavioral-learning core of the Loesoe repository.

Python floats are modelled as exact rationals (`ℚ`); Python `round(x, n)`
(round-half-to-even) is modelled by `pyRoundInt`/`roundTo`; UTC timestamps are
modelled as rationals (seconds); strings are Lean `String`s, with the
character-level helpers below reproducing the Python string operations used by
the source (ASCII case folding, as all literals involved are ASCII).

Embedded source files:
* `src/modules/status_slimheidsmeter.py` (composite score)
* `src/api/learning/aggregator.py` (pattern derivation and upsert)
* `src/modules/zelflerend/scoring.py` (feature extractor)
* `src/api/ml/modules/explain_preference_score.py` (scoring module)
-/

namespace Loesoe

/-- Python `round`-to-integer: round half to even (banker's rounding). -/
def pyRoundInt (q : ℚ) : ℤ :=
  if q - ⌊q⌋ < 1/2 then ⌊q⌋
  else if 1/2 < q - ⌊q⌋ then ⌊q⌋ + 1
  else if ⌊q⌋ % 2 = 0 then ⌊q⌋ else ⌊q⌋ + 1

/-- Python `round(q, n)`: round to `n` decimal places, half to even. -/
def roundTo (n : ℕ) (q : ℚ) : ℚ :=
  (pyRoundInt (q * 10 ^ n) : ℚ) / 10 ^ n

theorem pyRoundInt_le (q : ℚ) (B : ℤ) (h : q ≤ B) : pyRoundInt q ≤ B := by
  unfold pyRoundInt
  have hf : (⌊q⌋ : ℤ) ≤ B := by
    have := Int.floor_mono h
    simpa using this
  split_ifs with h1 h2 h3
  · exact hf
  · -- q - ⌊q⌋ > 1/2, so ⌊q⌋ + 1 ≤ B since ⌊q⌋ < q ≤ B
    have hlt : (⌊q⌋ : ℚ) < q := by linarith [Int.floor_le q]
    have : (⌊q⌋ : ℚ) < (B : ℚ) := lt_of_lt_of_le hlt h
    have : ⌊q⌋ < B := by exact_mod_cast this
    omega
  · exact hf
  · -- frac = 1/2 exactly: ⌊q⌋ < q, as above
    have hlt : (⌊q⌋ : ℚ) < q := by linarith [Int.floor_le q]
    have : (⌊q⌋ : ℚ) < (B : ℚ) := lt_of_lt_of_le hlt h
    have : ⌊q⌋ < B := by exact_mod_cast this
    omega

theorem le_pyRoundInt (q : ℚ) (B : ℤ) (h : (B : ℚ) ≤ q) : B ≤ pyRoundInt q := by
  unfold pyRoundInt
  have hf : B ≤ ⌊q⌋ := Int.le_floor.mpr h
  split_ifs <;> omega

theorem roundTo_mem_Icc (n : ℕ) (q : ℚ) (lo hi : ℤ)
    (h1 : (lo : ℚ) ≤ q) (h2 : q ≤ (hi : ℚ)) :
    (lo : ℚ) ≤ roundTo n q ∧ roundTo n q ≤ (hi : ℚ) := by
  have hpow : (0 : ℚ) < 10 ^ n := by positivity
  have hlow : (lo * 10 ^ n : ℤ) ≤ pyRoundInt (q * 10 ^ n) := by
    apply le_pyRoundInt
    push_cast
    exact mul_le_mul_of_nonneg_right h1 (le_of_lt hpow)
  have hhigh : pyRoundInt (q * 10 ^ n) ≤ (hi * 10 ^ n : ℤ) := by
    apply pyRoundInt_le
    push_cast
    exact mul_le_mul_of_nonneg_right h2 (le_of_lt hpow)
  constructor
  · rw [roundTo, le_div_iff₀ hpow]
    calc (lo : ℚ) * 10 ^ n = ((lo * 10 ^ n : ℤ) : ℚ) := by push_cast; ring
    _ ≤ _ := by exact_mod_cast hlow
  · rw [roundTo, div_le_iff₀ hpow]
    calc (pyRoundInt (q * 10 ^ n) : ℚ) ≤ ((hi * 10 ^ n : ℤ) : ℚ) := by exact_mod_cast hhigh
    _ = (hi : ℚ) * 10 ^ n := by push_cast; ring

/-! ## status_slimheidsmeter.py -/

/-- Point budget for the module-health sub-score. -/
def MAX_MODULE_POINTS : ℚ := 35
/-- Point budget for the self-learning sub-score. -/
def MAX_SELF_POINTS : ℚ := 50
/-- Point budget for the usage sub-score. -/
def MAX_USAGE_POINTS : ℚ := 15

/-- `ModuleStatus` dataclass (the unused `note` field is omitted). -/
structure ModuleStatus where
  key : String
  status : String
  deriving DecidableEq, Repr

/-- `SelfLearningStatus` dataclass (fields `user_score` and `patterns` are
never read by the scoring functions and are omitted). -/
structure SelfLearningStatus where
  has_data : Bool
  avg_score : Option ℚ
  preferences_count : ℤ
  last_mood : Option String
  deriving DecidableEq, Repr

/-- `LastSessionStatus` dataclass. -/
structure LastSessionStatus where
  last_action : Option ℚ
  estimated_dev_minutes : ℤ
  deriving DecidableEq, Repr

/-- Outcome of `datetime.fromisoformat` on a user's raw `last_action` field:
the field is falsy/absent, present but unparseable, or parses to a time. -/
inductive TsField where
  | missing
  | unparseable
  | parsed (t : ℚ)
  deriving DecidableEq, Repr

/-- One entry of `last_session_raw["users"]`: the fields the extractor reads. -/
structure UserRaw where
  last_action : TsField
  estimated_dev_minutes : ℤ
  deriving DecidableEq, Repr

/-- One entry of `modules_raw`: `key` models `m.get("key", "")`, `status`
models `str(m.get("status", "off"))` (before the `.lower()` applied by
`calculate_slimheidsmeter`). -/
structure ModuleRaw where
  key : String
  status : String
  deriving DecidableEq, Repr

/-- The fields of `self_learning_raw` that `calculate_slimheidsmeter` reads,
after the coercions it applies (`bool(...)`, `int(... or 0)`). -/
structure SelfLearningRaw where
  has_data : Bool
  avg_score : Option ℚ
  preferences_count : ℤ
  last_mood : Option String
  deriving DecidableEq, Repr

/-- The set `core_keys` of `_score_modules`. -/
def core_keys : List String :=
  ["auth", "database", "database_conn", "dashboard_api", "model_router",
   "chat_api", "zelflerend_geheugen"]

/-- ASCII lower-casing of one character (`str.lower` on the ASCII strings the
source compares). -/
def pyLowerChar (c : Char) : Char :=
  if 'A' ≤ c ∧ c ≤ 'Z' then Char.ofNat (c.toNat + 32) else c

/-- ASCII `str.lower()`. -/
def pyLower (s : String) : String := ⟨s.data.map pyLowerChar⟩

/-- Python whitespace for `str.strip()` on the inputs in scope. -/
def isPySpace (c : Char) : Bool :=
  c = ' ' ∨ c = '\t' ∨ c = '\n' ∨ c = '\r'

/-- `str.strip()`. -/
def pyStrip (s : String) : String :=
  ⟨((s.data.dropWhile isPySpace).reverse.dropWhile isPySpace).reverse⟩

/-- `needle in hay` for Python strings, on character lists. -/
def isSubList : List Char → List Char → Bool
  | needle, [] => needle = []
  | needle, c :: rest => needle.isPrefixOf (c :: rest) || isSubList needle rest

/-- `needle in hay` for Python strings. -/
def pyContains (hay needle : String) : Bool := isSubList needle.data hay.data

/-- `_score_modules`: 0-35 points from subsystem statuses. -/
def score_modules (modules : List ModuleStatus) : ℚ :=
  if modules = [] then 0
  else
    let base_per_module : ℚ := MAX_MODULE_POINTS / max (modules.length : ℚ) 1
    let score := modules.foldl
      (fun s m =>
        let weight : ℚ := if m.key ∈ core_keys then 13/10 else 1
        let status := pyLower (if m.status = "" then "off" else m.status)
        if status = "ok" then s + base_per_module * weight
        else if status = "warn" then s + base_per_module * (1/2) * weight
        else s) 0
    min score MAX_MODULE_POINTS

/-- Positive mood triggers of `_score_emotion`. -/
def positieve_triggers : List String :=
  ["rustig", "kalm", "relaxed", "blij", "tevreden",
   "gemotiveerd", "gefocust", "in balans", "chill"]

/-- Negative mood triggers of `_score_emotion`. -/
def negatieve_triggers : List String :=
  ["stress", "gestrest", "overprikkeld", "boos", "bang",
   "angstig", "onrustig", "moe", "op", "overwhelmed"]

/-- `_score_emotion`: -4/0/+4 correction from the last recorded mood. -/
def score_emotion (last_mood : Option String) : ℚ :=
  match last_mood with
  | none => 0
  | some m =>
    if m = "" then 0
    else
      let mood := pyLower (pyStrip m)
      if positieve_triggers.any (fun t => pyContains mood t) then 4
      else if negatieve_triggers.any (fun t => pyContains mood t) then -4
      else 0

/-- `_score_self_learning`: 0-50 points from the self-learning state. -/
def score_self_learning (sl : SelfLearningStatus) : ℚ :=
  let base1 : ℚ := if sl.has_data then 10 else 0
  let base2 : ℚ := base1 +
    (match sl.avg_score with
     | none => 0
     | some a => (max 0 (min a 10)) / 10 * 30)
  let prefs : ℤ := max 0 (min sl.preferences_count 10)
  let base3 : ℚ := base2 + (prefs : ℚ) / 10 * 10
  let emo_bonus := score_emotion sl.last_mood
  max 0 (min (base3 + emo_bonus) MAX_SELF_POINTS)

/-- `_score_usage`: 0-15 points from recency and accumulated dev minutes.
`now` and the timestamp are in seconds. -/
def score_usage (now : ℚ) (last_session : LastSessionStatus) : ℚ :=
  match last_session.last_action with
  | none => 0
  | some t =>
    let hours : ℚ := (now - t) / 3600
    let score : ℚ :=
      if hours ≤ 6 then 13
      else if hours ≤ 24 then 10
      else if hours ≤ 72 then 7
      else if hours ≤ 168 then 4
      else 0
    let score :=
      if 60 ≤ last_session.estimated_dev_minutes then min (score + 2) MAX_USAGE_POINTS
      else score
    min score MAX_USAGE_POINTS

/-- The `try: datetime.fromisoformat(ts) ... except: None` parse used in the
fallback branch of `_extract_last_session`. -/
def TsField.toOption : TsField → Option ℚ
  | .parsed t => some t
  | _ => none

/-- The accumulator step of `_extract_last_session`'s loop over
`users.items()`: keep the strictly most recent parseable `last_action`
(so the first of equal timestamps wins). -/
def bestStep (acc : Option (ℚ × UserRaw)) (u : UserRaw) : Option (ℚ × UserRaw) :=
  match u.last_action with
  | .parsed t =>
    match acc with
    | none => some (t, u)
    | some (t0, u0) => if t0 < t then some (t, u) else some (t0, u0)
  | _ => acc

/-- `_extract_last_session`: pick the user with the most recent parseable
`last_action`; if none parses, fall back to the first user. -/
def extract_last_session (users : List UserRaw) : LastSessionStatus :=
  if users = [] then ⟨none, 0⟩
  else
    match users.foldl bestStep none with
    | some (t, u) => ⟨some t, u.estimated_dev_minutes⟩
    | none =>
      match users with
      | [] => ⟨none, 0⟩
      | u0 :: _ => ⟨u0.last_action.toOption, u0.estimated_dev_minutes⟩

/-- The `ModuleStatus` built by `calculate_slimheidsmeter` from one raw dict. -/
def toModuleStatus (m : ModuleRaw) : ModuleStatus :=
  ⟨m.key, pyLower m.status⟩

/-- The `SelfLearningStatus` built by `calculate_slimheidsmeter`. -/
def toSelfLearningStatus (sl : SelfLearningRaw) : SelfLearningStatus :=
  ⟨sl.has_data, sl.avg_score, sl.preferences_count, sl.last_mood⟩

/-- `calculate_slimheidsmeter`: blend the three sub-scores into one 0-100
score rounded to one decimal. -/
def calculate_slimheidsmeter (now : ℚ) (modules_raw : List ModuleRaw)
    (self_learning_raw : SelfLearningRaw) (last_session_users : List UserRaw) : ℚ :=
  let modules := modules_raw.map toModuleStatus
  let sl := toSelfLearningStatus self_learning_raw
  let ls := extract_last_session last_session_users
  let total := score_modules modules + score_self_learning sl + score_usage now ls
  roundTo 1 (max 0 (min total 100))

/-! ## api/learning/aggregator.py -/

/-- JSON-shaped values that occur in event payloads and pattern
value/evidence dicts: strings, integers, and string arrays. -/
inductive JVal where
  | s (v : String)
  | n (v : ℤ)
  | arr (vs : List String)
  deriving DecidableEq, Repr

/-- One row of `fetch_events`' output: the fields `derive_patterns` reads
(`event_type` is `Option` because the dict lookup can miss; `payload` is the
dict as an association list; `created_at` as seconds). -/
structure Event where
  created_at : Option ℚ
  event_type : Option String
  tags : List String
  payload : List (String × JVal)
  deriving DecidableEq, Repr

/-- The `Pattern` dataclass; `value` and `evidence` are dicts modelled as
association lists, `last_seen` as seconds. -/
structure Pattern where
  subject : String
  pattern_type : String
  key : String
  value : List (String × JVal)
  confidence : ℚ
  evidence : List (String × JVal)
  last_seen : ℚ
  deriving DecidableEq, Repr

/-- `has_tag`: `wanted in (e.get("tags") or [])`. -/
def has_tag (e : Event) (wanted : String) : Bool := e.tags.contains wanted

/-- `is_type`: `(e.get("event_type") or "") == wanted`. -/
def is_type (e : Event) (wanted : String) : Bool :=
  (e.event_type.getD "") = wanted

/-- Count of the explain-preference rule: type `ask_explain` or tag
`ask_explain`. -/
def ask_explain_count (events : List Event) : ℕ :=
  (events.filter (fun e => is_type e "ask_explain" || has_tag e "ask_explain")).length

/-- Whether one event qualifies for the search-habit rule: tag `tool:search`
or payload field `action == "search"`. -/
def is_search_use (e : Event) : Bool :=
  has_tag e "tool:search" || (e.payload.lookup "action" = some (JVal.s "search"))

/-- Count of the search-habit rule. -/
def search_use_count (events : List Event) : ℕ :=
  (events.filter is_search_use).length

/-- Count of the high-friction rule: type or tag `correction`/`frustration`. -/
def friction_count (events : List Event) : ℕ :=
  (events.filter (fun e => is_type e "correction" || is_type e "frustration"
    || has_tag e "correction" || has_tag e "frustration")).length

/-- Confidence of the explain-preference rule at qualifying count `c`. -/
def explain_conf (c : ℕ) : ℚ := min 0.95 (0.55 + ((c : ℚ) - 4) * 0.08)

/-- Confidence of the search-habit rule at qualifying count `c`. -/
def search_conf (c : ℕ) : ℚ := min 0.92 (0.50 + ((c : ℚ) - 5) * 0.07)

/-- Confidence of the high-friction rule at qualifying count `c`. -/
def friction_conf (c : ℕ) : ℚ := min 0.90 (0.60 + ((c : ℚ) - 6) * 0.05)

/-- The explain-preference `Pattern` emitted at count `c` and time `now`. -/
def mkExplainPattern (now : ℚ) (c : ℕ) : Pattern :=
  { subject := "user", pattern_type := "preference", key := "explain_level"
    value := [("level", JVal.s "high")]
    confidence := explain_conf c
    evidence := [("event_type_or_tag", JVal.s "ask_explain"),
                 ("count", JVal.n c), ("threshold", JVal.n 4)]
    last_seen := now }

/-- The search-habit `Pattern` emitted at count `c` and time `now`. -/
def mkSearchPattern (now : ℚ) (c : ℕ) : Pattern :=
  { subject := "user", pattern_type := "habit", key := "tool_usage:search"
    value := [("count", JVal.n c)]
    confidence := search_conf c
    evidence := [("signals", JVal.arr ["tool:search", "payload.action=search"]),
                 ("count", JVal.n c), ("threshold", JVal.n 5)]
    last_seen := now }

/-- The high-friction `Pattern` emitted at count `c` and time `now`. -/
def mkFrictionPattern (now : ℚ) (c : ℕ) : Pattern :=
  { subject := "user", pattern_type := "anomaly", key := "interaction:high_friction"
    value := [("count", JVal.n c)]
    confidence := friction_conf c
    evidence := [("signals", JVal.arr ["correction", "frustration"]),
                 ("count", JVal.n c), ("threshold", JVal.n 6)]
    last_seen := now }

/-- `derive_patterns`: the three fixed rules, in source order. `now` is the
value of `utcnow()` at the start of the call. -/
def derive_patterns (now : ℚ) (events : List Event) : List Pattern :=
  (if 4 ≤ ask_explain_count events then [mkExplainPattern now (ask_explain_count events)] else [])
  ++ (if 5 ≤ search_use_count events then [mkSearchPattern now (search_use_count events)] else [])
  ++ (if 6 ≤ friction_count events then [mkFrictionPattern now (friction_count events)] else [])

/-- The unique identity of a pattern row. -/
def keyTriple (p : Pattern) : String × String × String :=
  (p.subject, p.pattern_type, p.key)

/-- Everything of a pattern except `last_seen` (value, confidence, evidence
and the identity). -/
def patternCore (p : Pattern) :
    String × String × String × List (String × JVal) × ℚ × List (String × JVal) :=
  (p.subject, p.pattern_type, p.key, p.value, p.confidence, p.evidence)

/-- One `INSERT ... ON CONFLICT (subject, pattern_type, key) DO UPDATE` of
`upsert_patterns`, acting on the table (a list of rows unique per key
triple): replace the conflicting row or append a new one. -/
def upsertOne (store : List Pattern) (p : Pattern) : List Pattern :=
  if store.any (fun r => keyTriple r = keyTriple p)
  then store.map (fun r => if keyTriple r = keyTriple p then p else r)
  else store ++ [p]

/-- `upsert_patterns`: upsert each derived pattern in order. -/
def upsert_patterns (store : List Pattern) (patterns : List Pattern) : List Pattern :=
  patterns.foldl upsertOne store

/-! ## modules/zelflerend/scoring.py -/

/-- `\w` of `re.findall(r"\w+", ...)` (the source only feeds it ASCII text). -/
def isWordChar (c : Char) : Bool := c.isAlphanum || c = '_'

/-- Maximal runs of characters satisfying `p` (regex `p+` findall); `acc`
holds the current run reversed. -/
def splitRunsGo (p : Char → Bool) : List Char → List Char → List (List Char)
  | [], acc => if acc = [] then [] else [acc.reverse]
  | c :: rest, acc =>
    if p c then splitRunsGo p rest (c :: acc)
    else if acc = [] then splitRunsGo p rest []
    else acc.reverse :: splitRunsGo p rest []

/-- `_to_words`: `re.findall(r"\w+", text.lower())`. -/
def to_words (s : String) : List String :=
  (splitRunsGo isWordChar (pyLower s).data []).map (fun l => ⟨l⟩)

/-- `text.count(c)` for a single character. -/
def countChar (s : String) (c : Char) : ℕ := (s.data.filter (· = c)).length

/-- ASCII `c.isupper()`. -/
def isUpperChar (c : Char) : Bool := 'A' ≤ c ∧ c ≤ 'Z'

/-- `_safe_div`. -/
def safe_div (a b : ℚ) : ℚ := if b = 0 then 0 else a / b

/-- `_normalize`: clamp `(value - min_v) / (max_v - min_v)` into `[0, 1]`. -/
def normalize (value min_v max_v : ℚ) : ℚ :=
  if max_v = min_v then 0
  else max 0 (min 1 ((value - min_v) / (max_v - min_v)))

/-- `str.startswith`. -/
def pyStartsWith (s pre : String) : Bool := pre.data.isPrefixOf s.data

/-- `str.endswith`. -/
def pyEndsWith (s suf : String) : Bool := suf.data.isSuffixOf s.data

def POSITIVE_WORDS : List String :=
  ["top", "lekker", "nice", "gaaf", "goed", "chill", "relaxed",
   "blij", "fijn", "yes", "yess", "yay", "super", "trots"]

def NEGATIVE_WORDS : List String :=
  ["kut", "klote", "k*t", "slecht", "rot", "balen",
   "pfff", "pffff", "wtf", "boos", "haat"]

def STRESS_WORDS : List String :=
  ["stress", "zenuw", "zenuwachtig", "paniek", "bang",
   "nerveus", "onzeker", "overprikkeld", "prikkels"]

def ANGER_WORDS : List String :=
  ["gvd", "godver", "fk", "fuck", "woest", "klootzak", "idioot"]

def HIGH_ENERGY_MARKERS : List String :=
  ["joo", "maat", "haha", "hahaha", "omg", "wtf", "🔥", "🤘"]

/-- `EmotionScore` dataclass. -/
structure EmotionScore where
  label : String
  confidence : ℚ
  energy : ℚ
  stress : ℚ
  deriving DecidableEq, Repr

/-- `IntentScore` dataclass. -/
structure IntentScore where
  label : String
  confidence : ℚ
  tags : List String
  deriving DecidableEq, Repr

/-- `BehaviorScore` dataclass. -/
structure BehaviorScore where
  importance : ℚ
  novelty : ℚ
  habit_strength : ℚ
  risk : ℚ
  deriving DecidableEq, Repr

/-- `RawStats` dataclass; `timestamp` is the `datetime.utcnow().isoformat()`
string taken at the call. -/
structure RawStats where
  length : ℕ
  word_count : ℕ
  exclamations : ℕ
  question_marks : ℕ
  uppercase_ratio : ℚ
  contains_crypto : Bool
  contains_money : Bool
  contains_time : Bool
  timestamp : String
  deriving DecidableEq, Repr

/-- `_detect_emotion`. (The local `sentiment_norm` of the source is computed
but never used and is omitted.) -/
def detect_emotion (message : String) : EmotionScore :=
  let text := pyStrip message
  let words := to_words text
  let pos_hits := (words.filter (· ∈ POSITIVE_WORDS)).length
  let neg_hits := (words.filter (· ∈ NEGATIVE_WORDS)).length
  let stress_hits := (words.filter (· ∈ STRESS_WORDS)).length
  let anger_hits := (words.filter (· ∈ ANGER_WORDS)).length
  let energy_hits := (words.filter (· ∈ HIGH_ENERGY_MARKERS)).length
  let exclamations := countChar text '!'
  let question_marks := countChar text '?'
  let upper_chars := (text.data.filter isUpperChar).length
  let total_chars : ℕ := if text.length = 0 then 1 else text.length
  let uppercase_ratio : ℚ := (upper_chars : ℚ) / (total_chars : ℚ)
  let base_energy := normalize ((exclamations : ℚ) + (energy_hits : ℚ) * 1.5 + uppercase_ratio * 10) 0 10
  let base_stress := normalize ((stress_hits : ℚ) * 1.5 + (anger_hits : ℚ) * 2 + (question_marks : ℚ)) 0 8
  let sentiment_raw : ℤ := (pos_hits : ℤ) - ((neg_hits : ℤ) + (anger_hits : ℤ))
  let label :=
    if 1 < sentiment_raw then "positief"
    else if sentiment_raw < -1 then
      (if stress_hits < anger_hits then "boos" else "negatief")
    else if (0.6 : ℚ) < base_stress then "gestrest"
    else "neutraal"
  let signal_strength := pos_hits + neg_hits + stress_hits + anger_hits + exclamations + question_marks
  let confidence := normalize (signal_strength : ℚ) 0 12
  ⟨label, roundTo 3 confidence, roundTo 3 base_energy, roundTo 3 base_stress⟩

def crypto_kws : List String :=
  ["btc", "bitcoin", "altseason", "alt season", "altcoins",
   "wif", "tars", "fart", "kaspa", "kasp", "etc", "eth",
   "bybit", "bitvavo", "binance", "entry", "target", "stoploss", "stop loss"]

def planning_kws : List String :=
  ["planning", "afspraak", "agenda", "morgen", "vandaag",
   "vanavond", "weekend", "deadline", "uren", "werken", "sollicitatie"]

def werk_kws : List String :=
  ["gemeente", "baan", "cv", "sollicitatie", "vacature", "uren",
   "contract", "werk", "functie", "teamleider"]

def ontwikkeling_kws : List String :=
  ["leren", "studie", "opleiding", "cursus", "boeken",
   "pdf", "samenvatten", "developer", "programmeren", "python", "code"]

def emotioneel_kws : List String :=
  ["bang", "stress", "zorgen", "gevoel", "emotie", "twijfel",
   "doodop", "overprikkeld", "overprikkeling", "onzeker"]

def buddy_kws : List String :=
  ["lizz", "jax", "buddy", "kinder", "tiener", "school",
   "sinterklaas", "cadeau", "speelgoed"]

/-- Number of keywords of `kws` occurring as substring of `text`
(one increment per keyword, as in the `for kw in keywords` loop). -/
def kw_hits (text : String) (kws : List String) : ℕ :=
  (kws.filter (fun k => pyContains text k)).length

/-- Insertion into a sorted list by the code-point order Python's `sorted`
uses on strings. -/
def insertStr (x : String) : List String → List String
  | [] => [x]
  | y :: ys => if x < y then x :: y :: ys else y :: insertStr x ys

/-- Insertion sort by code-point order. -/
def sortStrs : List String → List String
  | [] => []
  | x :: xs => insertStr x (sortStrs xs)

/-- `sorted(set(xs))` on strings. -/
def sortedDedup (xs : List String) : List String := sortStrs xs.dedup

/-- `_detect_intent`. (The local `words` of the source is computed but never
used and is omitted.) -/
def detect_intent (message : String) : IntentScore :=
  let text := pyLower message
  let crypto := kw_hits text crypto_kws
  let planning := kw_hits text planning_kws
  let werk := kw_hits text werk_kws
  let ontwikkeling := kw_hits text ontwikkeling_kws
  let emotioneel := kw_hits text emotioneel_kws
  let buddy := kw_hits text buddy_kws
  let kw_tags :=
    crypto_kws.filter (fun k => pyContains text k)
    ++ planning_kws.filter (fun k => pyContains text k)
    ++ werk_kws.filter (fun k => pyContains text k)
    ++ ontwikkeling_kws.filter (fun k => pyContains text k)
    ++ emotioneel_kws.filter (fun k => pyContains text k)
    ++ buddy_kws.filter (fun k => pyContains text k)
  let greet := (["joo maat", "jo maat", "joo", "maat"] : List String).any
    (fun p => pyContains text p)
  let checkin := (["hoe is het", "hoe gaat het"] : List String).any
    (fun p => pyContains text p)
  let smalltalk_score : ℕ := (if greet then 2 else 0) + (if checkin then 2 else 0)
  let hits_tags := kw_tags ++ (if greet then ["smalltalk"] else [])
    ++ (if checkin then ["check-in"] else [])
  let top := (([("crypto", crypto), ("planning", planning), ("werk", werk),
      ("ontwikkeling", ontwikkeling), ("emotioneel", emotioneel),
      ("buddy", buddy)] : List (String × ℕ))).foldl
    (fun t p => if t.2 < p.2 then p else t) ("smalltalk", smalltalk_score)
  let top := if 2 ≤ emotioneel ∧ top.2 ≤ emotioneel then ("emotioneel", emotioneel) else top
  let confidence := normalize (top.2 : ℚ) 0 5
  ⟨top.1, roundTo 3 confidence, sortedDedup hits_tags⟩

def MONEY_WORDS : List String :=
  ["euro", "€", "salaris", "loon", "verdien", "verdient",
   "budget", "schuld", "betal", "rekening", "prive", "privé"]

def TIME_WORDS : List String :=
  ["vandaag", "morgen", "vanavond", "straks", "volgende week",
   "overmorgen", "dit weekend", "die dag", "datum", "tijdstip"]

/-- `_extract_raw_stats`; `ts_now` is the wall-clock isoformat string the
source obtains from `datetime.utcnow()`. -/
def extract_raw_stats (ts_now : String) (message : String) : RawStats :=
  let text := message
  let words := to_words text
  let length := text.length
  let word_count := words.length
  let exclamations := countChar text '!'
  let question_marks := countChar text '?'
  let upper_chars := (text.data.filter isUpperChar).length
  let total_chars : ℕ := if length = 0 then 1 else length
  let uppercase_ratio : ℚ := (upper_chars : ℚ) / (total_chars : ℚ)
  let lw := pyLower text
  let contains_crypto := crypto_kws.any (fun k => pyContains lw k)
  let contains_money := MONEY_WORDS.any (fun k => pyContains lw k)
  let contains_time := TIME_WORDS.any (fun k => pyContains lw k)
  ⟨length, word_count, exclamations, question_marks, roundTo 3 uppercase_ratio,
   contains_crypto, contains_money, contains_time, ts_now⟩

/-- `_detect_habit_strength`. -/
def detect_habit_strength (message : String) (history : List String) : ℚ :=
  if history = [] then 0.1
  else
    let text := pyStrip (pyLower message)
    let history_lw := (history.filter (· ≠ "")).map (fun h => pyStrip (pyLower h))
    if text = "" then 0
    else
      let same_start := history_lw.foldl
        (fun n h =>
          if h = "" then n
          else if pyStartsWith text "joo maat" && pyStartsWith h "joo maat" then n + 1
          else if pyContains h text || pyContains text h then n + 1
          else n) 0
      let ratio := safe_div (same_start : ℚ) (history_lw.length : ℚ)
      roundTo 3 (normalize ratio 0 0.6)

/-- `_estimate_importance`. -/
def estimate_importance (message : String) (intent : IntentScore)
    (emotion : EmotionScore) (raw : RawStats) : ℚ :=
  let text := pyLower message
  let base : ℚ := 0.2
  let base := base + (if intent.label ∈ ["werk", "planning", "ontwikkeling", "crypto"] then 0.2 else 0)
  let base := base + (if intent.label = "emotioneel" then 0.15 else 0)
  let base := base + (if raw.contains_money then 0.15 else 0)
  let base := base +
    (if (["contract", "sollicitatie", "baan", "gemeente"] : List String).any
        (fun w => pyContains text w) then 0.15 else 0)
  let base := base + (if raw.contains_time then 0.1 else 0)
  let base := base + emotion.stress * 0.15
  let base := base + (if emotion.label ∈ ["boos", "gestrest", "negatief"] then 0.1 else 0)
  let base := base + (if 40 < raw.word_count then 0.05 else 0)
  let base := base + (if 80 < raw.word_count then 0.05 else 0)
  max 0 (min 1 (roundTo 3 base))

/-- `_estimate_novelty`. -/
def estimate_novelty (message : String) (history : List String) : ℚ :=
  if history = [] then 1
  else
    let text := pyStrip (pyLower message)
    if text = "" then 0
    else
      let history_lw := (history.filter (· ≠ "")).map (fun h => pyStrip (pyLower h))
      let total := history_lw.length
      if total = 0 then 1
      else
        let w1 := (to_words text).dedup
        let similar := history_lw.foldl
          (fun n h =>
            if h = "" then n
            else
              let w2 := (to_words h).dedup
              if w1 = [] ∨ w2 = [] then n
              else
                let interLen := (w1.filter (· ∈ w2)).length
                let unionLen := w1.length + w2.length - interLen
                if (0.7 : ℚ) < (interLen : ℚ) / (unionLen : ℚ) then n + 1 else n) 0
        let ratio := safe_div (similar : ℚ) (total : ℚ)
        roundTo 3 (max 0 (min 1 (1 - ratio)))

def risk_words : List String :=
  ["all-in", "all in", "alles inzetten", "alles erin", "max leverage",
   "x50", "x100", "gokken", "casino", "mogelijk verlies"]

/-- Value of a `\d+` digit run. -/
def digitsToNat (l : List Char) : ℕ := l.foldl (fun n c => n * 10 + (c.toNat - 48)) 0

/-- `max(int(n) for n in re.findall(r"\d+", text))`, `none` when no digits. -/
def maxNumber (text : String) : Option ℕ :=
  ((splitRunsGo Char.isDigit text.data []).map digitsToNat).max?

/-- `_estimate_risk`. -/
def estimate_risk (message : String) (intent : IntentScore)
    (emotion : EmotionScore) (raw : RawStats) : ℚ :=
  let text := pyLower message
  let base : ℚ := 0
  let base := if raw.contains_crypto then base + 0.2 + emotion.stress * 0.2 else base
  let base := base + (if risk_words.any (fun w => pyContains text w) then 0.3 else 0)
  let base :=
    if (["€", "euro"] : List String).any (fun s => pyContains text s) then
      match maxNumber text with
      | none => base
      | some m => if 500 ≤ m then base + 0.2 else if 200 ≤ m then base + 0.1 else base
    else base
  let base := base + (if raw.contains_money ∧ (1/2 : ℚ) < emotion.stress then 0.2 else 0)
  let base := if intent.label = "smalltalk" then base * 0.3 else base
  max 0 (min 1 (roundTo 3 base))

/-- The full scoring profile returned by `score_message`. -/
structure ScoredMessage where
  version : ℕ
  emotion : EmotionScore
  intent : IntentScore
  behavior : BehaviorScore
  raw : RawStats
  deriving DecidableEq, Repr

/-- `score_message`; `ts_now` is the wall-clock reading used for
`raw.timestamp`. -/
def score_message (ts_now : String) (message : String)
    (history : List String) : ScoredMessage :=
  let raw := extract_raw_stats ts_now message
  let emotion := detect_emotion message
  let intent := detect_intent message
  let habit_strength := detect_habit_strength message history
  let importance := estimate_importance message intent emotion raw
  let novelty := estimate_novelty message history
  let risk := estimate_risk message intent emotion raw
  ⟨1, emotion, intent, ⟨importance, novelty, habit_strength, risk⟩, raw⟩

/-! ## api/ml/modules/explain_preference_score.py

The pattern `value` column is JSON-shaped; `_extract_level` distinguishes
dicts, strings and everything else, so the value is modelled by `PVal`.
`json.loads` is modelled by a parser for the JSON fragment the pattern
values live in: objects with string keys and string values, without escape
sequences. -/

/-- A JSON value sitting inside a pattern-value dict: `_extract_level` only
distinguishes strings from everything else. -/
inductive PyPrim where
  | pstr (s : String)
  | other
  deriving DecidableEq, Repr

/-- The `value` field of a pattern snapshot: a dict, a string, or anything
else. -/
inductive PVal where
  | vdict (fields : List (String × PyPrim))
  | vstr (s : String)
  | vother
  deriving DecidableEq, Repr

def lbrace : Char := Char.ofNat 123
def rbrace : Char := Char.ofNat 125

/-- Drop leading JSON whitespace. -/
def skipWs : List Char → List Char
  | [] => []
  | c :: rest => if isPySpace c then skipWs rest else c :: rest

/-- Body of a JSON string after the opening quote: the characters up to the
closing quote (escape sequences are outside the modelled fragment). -/
def strBody : List Char → Option (List Char × List Char)
  | [] => none
  | c :: rest =>
    if c = '"' then some ([], rest)
    else if c = '\\' then none
    else match strBody rest with
      | some (cs, r) => some (c :: cs, r)
      | none => none

/-- A JSON string literal. -/
def parseJStr : List Char → Option (String × List Char)
  | [] => none
  | c :: rest =>
    if c = '"' then (strBody rest).map fun p => (⟨p.1⟩, p.2)
    else none

/-- `"key": "value"` pairs separated by commas, consuming the closing brace;
`fuel` bounds the recursion by the input length. -/
def parsePairs (fuel : ℕ) (l : List Char) : Option (List (String × PyPrim) × List Char) :=
  match fuel with
  | 0 => none
  | fuel + 1 =>
    match parseJStr (skipWs l) with
    | none => none
    | some (k, r1) =>
      match skipWs r1 with
      | [] => none
      | c :: r2 =>
        if c ≠ ':' then none
        else
          match parseJStr (skipWs r2) with
          | none => none
          | some (v, r3) =>
            match skipWs r3 with
            | [] => none
            | d :: r4 =>
              if d = ',' then
                match parsePairs fuel r4 with
                | some (ps, r5) => some ((k, PyPrim.pstr v) :: ps, r5)
                | none => none
              else if d = rbrace then some ([(k, PyPrim.pstr v)], r4)
              else none

/-- A whole JSON object (the modelled `json.loads`, restricted to the
string-valued-object fragment). -/
def parseObj (l : List Char) : Option (List (String × PyPrim)) :=
  match skipWs l with
  | [] => none
  | c :: r =>
    if c ≠ lbrace then none
    else
      match skipWs r with
      | [] => none
      | d :: r2 =>
        if d = rbrace then (if skipWs r2 = [] then some [] else none)
        else
          match parsePairs (r.length + 1) r with
          | some (ps, rest) => if skipWs rest = [] then some ps else none
          | none => none

/-- `_try_parse_json_object`. -/
def try_parse_json_object (s : String) : Option (List (String × PyPrim)) :=
  let t := pyStrip s
  if pyStartsWith t "\x7b" ∧ pyEndsWith t "\x7d" then parseObj t.data else none

/-- `_extract_level`. -/
def extract_level (value : PVal) : String :=
  match value with
  | .vdict fields =>
    match fields.lookup "level" with
    | some (.pstr l) => if pyStrip l ≠ "" then pyLower (pyStrip l) else "unknown"
    | _ => "unknown"
  | .vstr v =>
    if pyStrip v = "" then "unknown"
    else
      let s := pyStrip v
      match try_parse_json_object s with
      | some obj =>
        match obj.lookup "level" with
        | some (.pstr l) => if pyStrip l ≠ "" then pyLower (pyStrip l) else "unknown"
        | _ => "unknown"
      | none => pyLower s
  | .vother => "unknown"

/-- `_level_to_base`. -/
def level_to_base (level : String) : ℚ :=
  if level = "high" then 1
  else if level = "medium" then 0.6
  else if level = "low" then 0.2
  else 0

/-- `_clamp01`. -/
def clamp01 (x : ℚ) : ℚ := max 0 (min 1 x)

/-- `_normalize_confidence` on an already-numeric confidence: values above 1
are treated as percentages, then clamped into `[0, 1]`. -/
def normalize_confidence (c : ℚ) : ℚ := clamp01 (if 1 < c then c / 100 else c)

/-- A pattern snapshot dict as `ExplainPreferenceScore.compute` reads it
(fields `id`, `subject`, `last_seen` only flow into audit payload text and
are omitted). -/
structure MLPattern where
  pattern_type : Option String
  key : Option String
  value : PVal
  confidence : ℚ
  deriving DecidableEq, Repr

/-- `_find_explain_level_pattern`: first pattern with type `preference` and
key `explain_level`. -/
def find_explain_level_pattern (patterns : List MLPattern) : Option MLPattern :=
  patterns.find? fun p =>
    decide (p.pattern_type = some "preference" ∧ p.key = some "explain_level")

/-- The fields of the `MLResult` returned by `ExplainPreferenceScore.compute`
that carry data (`computed_at_utc`, `inputs` and the `explain` prose are
presentation/audit strings and are omitted; the `flags` dict is flattened
into the four named booleans). -/
structure MLResult where
  module : String
  version : String
  kind : String
  status : String
  score : ℚ
  has_preference : Bool
  pref_high : Bool
  pref_medium : Bool
  pref_low : Bool
  payload_level : Option String
  payload_base : ℚ
  payload_confidence : ℚ
  deriving DecidableEq, Repr

/-- `ExplainPreferenceScore.compute`. -/
def explain_preference_compute (patterns : List MLPattern) : MLResult :=
  match find_explain_level_pattern patterns with
  | none =>
    { module := "explain_preference_score", version := "0.2.1", kind := "score"
      status := "warn", score := 0, has_preference := false
      pref_high := false, pref_medium := false, pref_low := false
      payload_level := none, payload_base := 0, payload_confidence := 0 }
  | some p =>
    let conf := normalize_confidence p.confidence
    let level := extract_level p.value
    let base := level_to_base level
    let score := roundTo 4 (clamp01 (base * conf))
    { module := "explain_preference_score", version := "0.2.1", kind := "score"
      status := "ok", score := score, has_preference := true
      pref_high := level = "high", pref_medium := level = "medium"
      pref_low := level = "low"
      payload_level := some level, payload_base := base, payload_confidence := conf }

/-! ## Theorems: pattern-derivation rules (C2, C5, C6) -/

/-- The explain-preference count as the spec claims it (type `ask_explain`,
tag `ask_explain`, **or tag `pref:explain`**); the source never consults
`pref:explain`. Written from the claim for the refutation. -/
def claimed_explain_count (events : List Event) : ℕ :=
  (events.filter (fun e => is_type e "ask_explain" || has_tag e "ask_explain"
    || has_tag e "pref:explain")).length

/-- The search-habit `last_seen` as the spec claims it: the latest
`created_at` of a matching event, falling back to `now` only when no
matching event has a timestamp. Written from the claim for the refutation. -/
def claimed_search_last_seen (now : ℚ) (events : List Event) : ℚ :=
  match ((events.filter is_search_use).filterMap Event.created_at).max? with
  | some t => t
  | none => now

/-- C2 counterexample: four events carrying only the tag `pref:explain`
count 4 under the claimed rule, yet `derive_patterns` emits nothing,
because the source counts only type/tag `ask_explain`. -/
theorem C2_counterexample :
    claimed_explain_count (List.replicate 4 ⟨none, none, ["pref:explain"], []⟩) = 4 ∧
    derive_patterns 0 (List.replicate 4 ⟨none, none, ["pref:explain"], []⟩) = [] := by
  decide

/-- C2 (amended): the explain-preference rule counts events of type
`ask_explain` or carrying tag `ask_explain` (tag `pref:explain` is not
consulted); a pattern with identity (user, preference, explain_level),
value level=high and confidence min(0.95, 0.55 + (count-4)*0.08) is emitted
exactly when the count is ≥ 4; a batch of exactly four `ask_explain` events
yields confidence 0.55. -/
theorem C2_explain_preference_rule (now : ℚ) (events : List Event) :
    ((∃ p ∈ derive_patterns now events,
        p.pattern_type = "preference" ∧ p.key = "explain_level") ↔
      4 ≤ ask_explain_count events) ∧
    (∀ p ∈ derive_patterns now events,
      p.pattern_type = "preference" → p.key = "explain_level" →
      p.subject = "user" ∧ p.value = [("level", JVal.s "high")] ∧
      p.confidence = min 0.95 (0.55 + ((ask_explain_count events : ℚ) - 4) * 0.08)) ∧
    (derive_patterns now (List.replicate 4 ⟨none, some "ask_explain", [], []⟩)).map
      Pattern.confidence = [0.55] := by
  refine ⟨?_, ?_, ?_⟩
  · constructor
    · rintro ⟨p, hp, htype, hkey⟩
      simp only [derive_patterns, List.mem_append] at hp
      rcases hp with (hp | hp) | hp
      · split at hp
        · assumption
        · simp at hp
      · split at hp <;> simp_all [mkSearchPattern]
      · split at hp <;> simp_all [mkFrictionPattern]
    · intro h
      refine ⟨mkExplainPattern now (ask_explain_count events), ?_, by simp [mkExplainPattern]⟩
      simp [derive_patterns, h]
  · intro p hp htype hkey
    simp only [derive_patterns, List.mem_append] at hp
    rcases hp with (hp | hp) | hp
    · split at hp
      · simp only [List.mem_singleton] at hp
        subst hp
        exact ⟨rfl, rfl, rfl⟩
      · simp at hp
    · split at hp <;> simp_all [mkSearchPattern]
    · split at hp <;> simp_all [mkFrictionPattern]
  · have h : derive_patterns now (List.replicate 4 ⟨none, some "ask_explain", [], []⟩)
        = [mkExplainPattern now 4] := rfl
    rw [h]
    simp only [List.map_cons, List.map_nil, mkExplainPattern, explain_conf]
    norm_num

/-- Closed instance of `C2_explain_preference_rule`: a batch of exactly
four `ask_explain` events derives one pattern with confidence 0.55. -/
theorem C2_witness :
    (derive_patterns 3 (List.replicate 4 ⟨none, some "ask_explain", [], []⟩)).map
      Pattern.confidence = [0.55] :=
  (C2_explain_preference_rule 3 []).2.2

/-- C5 counterexample: five `tool:search` events all timestamped 100,
derived at now = 999: the claim predicts `last_seen` = 100 (latest matching
event timestamp), but the source always stamps `last_seen` with `now`. -/
theorem C5_counterexample :
    claimed_search_last_seen 999 (List.replicate 5 ⟨some 100, none, ["tool:search"], []⟩) = 100 ∧
    (derive_patterns 999 (List.replicate 5 ⟨some 100, none, ["tool:search"], []⟩)).map
      Pattern.last_seen = [999] ∧
    (999 : ℚ) ≠ 100 := by
  refine ⟨by decide, by decide, by norm_num⟩

/-- C5 (amended): the search-habit rule counts events carrying tag
`tool:search` or payload action "search" and emits exactly when the count
is ≥ 5, with identity (user, habit, tool_usage:search), value count,
confidence min(0.92, 0.50 + (count-5)*0.07), and `last_seen` always equal
to the derivation time `now` (matching event timestamps are not
consulted). -/
theorem C5_search_habit_rule (now : ℚ) (events : List Event) :
    ((∃ p ∈ derive_patterns now events,
        p.pattern_type = "habit" ∧ p.key = "tool_usage:search") ↔
      5 ≤ search_use_count events) ∧
    (∀ p ∈ derive_patterns now events,
      p.pattern_type = "habit" → p.key = "tool_usage:search" →
      p.subject = "user" ∧ p.value = [("count", JVal.n (search_use_count events))] ∧
      p.confidence = min 0.92 (0.50 + ((search_use_count events : ℚ) - 5) * 0.07) ∧
      p.last_seen = now) := by
  constructor
  · constructor
    · rintro ⟨p, hp, htype, hkey⟩
      simp only [derive_patterns, List.mem_append] at hp
      rcases hp with (hp | hp) | hp
      · split at hp <;> simp_all [mkExplainPattern]
      · split at hp
        · assumption
        · simp at hp
      · split at hp <;> simp_all [mkFrictionPattern]
    · intro h
      refine ⟨mkSearchPattern now (search_use_count events), ?_, by simp [mkSearchPattern]⟩
      simp [derive_patterns, h]
  · intro p hp htype hkey
    simp only [derive_patterns, List.mem_append] at hp
    rcases hp with (hp | hp) | hp
    · split at hp <;> simp_all [mkExplainPattern]
    · split at hp
      · simp only [List.mem_singleton] at hp
        subst hp
        exact ⟨rfl, rfl, rfl, rfl⟩
      · simp at hp
    · split at hp <;> simp_all [mkFrictionPattern]

/-- Closed instance of `C5_search_habit_rule` on five `tool:search` events
derived at time 7. -/
theorem C5_witness :
    (mkSearchPattern 7 5).subject = "user" ∧
    (mkSearchPattern 7 5).value
      = [("count", JVal.n (search_use_count
          (List.replicate 5 ⟨none, none, ["tool:search"], []⟩)))] ∧
    (mkSearchPattern 7 5).confidence
      = min 0.92 (0.50 + ((search_use_count
          (List.replicate 5 ⟨none, none, ["tool:search"], []⟩) : ℚ) - 5) * 0.07) ∧
    (mkSearchPattern 7 5).last_seen = 7 :=
  (C5_search_habit_rule 7 (List.replicate 5 ⟨none, none, ["tool:search"], []⟩)).2
    (mkSearchPattern 7 5)
    (by
      have hm : derive_patterns 7 (List.replicate 5 ⟨none, none, ["tool:search"], []⟩)
          = [mkSearchPattern 7 5] := rfl
      rw [hm]
      exact List.mem_singleton_self _)
    rfl rfl

/-- C6: below its threshold each rule derives nothing, and each rule's
confidence is monotone non-decreasing in the qualifying count and never
exceeds its ceiling (0.95 / 0.92 / 0.90). -/
theorem C6_thresholds_and_monotonicity :
    (∀ (now : ℚ) (events : List Event), ask_explain_count events < 4 →
      (derive_patterns now events).filter
        (fun p => p.pattern_type = "preference" ∧ p.key = "explain_level") = []) ∧
    (∀ (now : ℚ) (events : List Event), search_use_count events < 5 →
      (derive_patterns now events).filter
        (fun p => p.pattern_type = "habit" ∧ p.key = "tool_usage:search") = []) ∧
    (∀ (now : ℚ) (events : List Event), friction_count events < 6 →
      (derive_patterns now events).filter
        (fun p => p.pattern_type = "anomaly" ∧ p.key = "interaction:high_friction") = []) ∧
    (∀ c c' : ℕ, 4 ≤ c → c ≤ c' →
      explain_conf c ≤ explain_conf c' ∧ explain_conf c' ≤ 0.95) ∧
    (∀ c c' : ℕ, 5 ≤ c → c ≤ c' →
      search_conf c ≤ search_conf c' ∧ search_conf c' ≤ 0.92) ∧
    (∀ c c' : ℕ, 6 ≤ c → c ≤ c' →
      friction_conf c ≤ friction_conf c' ∧ friction_conf c' ≤ 0.90) := by
  have hmono : ∀ (a b : ℚ) (c c' : ℕ), 0 ≤ b → c ≤ c' →
      min a (0.55 + ((c : ℚ) - 4) * b) ≤ min a (0.55 + ((c' : ℚ) - 4) * b) := by
    intro a b c c' hb hcc
    have : ((c : ℚ)) ≤ (c' : ℚ) := by exact_mod_cast hcc
    exact min_le_min le_rfl (by nlinarith)
  refine ⟨?_, ?_, ?_, ?_, ?_, ?_⟩
  · intro now events h
    have h4 : ¬ (4 ≤ ask_explain_count events) := by omega
    by_cases h5 : 5 ≤ search_use_count events <;>
      by_cases h6 : 6 ≤ friction_count events <;>
      simp [derive_patterns, h4, h5, h6, List.filter_append, List.filter,
        mkSearchPattern, mkFrictionPattern]
  · intro now events h
    have h5 : ¬ (5 ≤ search_use_count events) := by omega
    by_cases h4 : 4 ≤ ask_explain_count events <;>
      by_cases h6 : 6 ≤ friction_count events <;>
      simp [derive_patterns, h4, h5, h6, List.filter_append, List.filter,
        mkExplainPattern, mkFrictionPattern]
  · intro now events h
    have h6 : ¬ (6 ≤ friction_count events) := by omega
    by_cases h4 : 4 ≤ ask_explain_count events <;>
      by_cases h5 : 5 ≤ search_use_count events <;>
      simp [derive_patterns, h4, h5, h6, List.filter_append, List.filter,
        mkExplainPattern, mkSearchPattern]
  · intro c c' h4 hcc
    have hc : ((c : ℚ)) ≤ (c' : ℚ) := by exact_mod_cast hcc
    refine ⟨min_le_min le_rfl (by nlinarith), min_le_left _ _⟩
  · intro c c' h5 hcc
    have hc : ((c : ℚ)) ≤ (c' : ℚ) := by exact_mod_cast hcc
    refine ⟨min_le_min le_rfl (by nlinarith), min_le_left _ _⟩
  · intro c c' h6 hcc
    have hc : ((c : ℚ)) ≤ (c' : ℚ) := by exact_mod_cast hcc
    refine ⟨min_le_min le_rfl (by nlinarith), min_le_left _ _⟩

/-- Closed instances of `C6_thresholds_and_monotonicity`. -/
theorem C6_witness :
    (derive_patterns 0 (List.replicate 3 ⟨none, some "ask_explain", [], []⟩)).filter
      (fun p => p.pattern_type = "preference" ∧ p.key = "explain_level") = [] ∧
    (derive_patterns 0 (List.replicate 4 ⟨none, none, ["tool:search"], []⟩)).filter
      (fun p => p.pattern_type = "habit" ∧ p.key = "tool_usage:search") = [] ∧
    (derive_patterns 0 (List.replicate 5 ⟨none, some "correction", [], []⟩)).filter
      (fun p => p.pattern_type = "anomaly" ∧ p.key = "interaction:high_friction") = [] ∧
    (explain_conf 4 ≤ explain_conf 9 ∧ explain_conf 9 ≤ 0.95) ∧
    (search_conf 5 ≤ search_conf 9 ∧ search_conf 9 ≤ 0.92) ∧
    (friction_conf 6 ≤ friction_conf 13 ∧ friction_conf 13 ≤ 0.90) :=
  ⟨C6_thresholds_and_monotonicity.1 0 _ (by decide),
   C6_thresholds_and_monotonicity.2.1 0 _ (by decide),
   C6_thresholds_and_monotonicity.2.2.1 0 _ (by decide),
   C6_thresholds_and_monotonicity.2.2.2.1 4 9 (by decide) (by decide),
   C6_thresholds_and_monotonicity.2.2.2.2.1 5 9 (by decide) (by decide),
   C6_thresholds_and_monotonicity.2.2.2.2.2 6 13 (by decide) (by decide)⟩

/-! ## Theorems: derive-then-upsert idempotence (C9) -/

/-- C9: two derive-and-upsert runs over the same event batch agree on
everything but `last_seen` (so confidence and evidence are identical), the
second run adds no rows, and afterwards each derived key triple owns
exactly one row, holding the second run's pattern (replace, not
accumulate). -/
theorem C9_upsert_idempotent (events : List Event) (now1 now2 : ℚ) :
    (derive_patterns now1 events).map patternCore
      = (derive_patterns now2 events).map patternCore ∧
    (upsert_patterns (upsert_patterns [] (derive_patterns now1 events))
        (derive_patterns now2 events)).length
      = (upsert_patterns [] (derive_patterns now1 events)).length ∧
    (∀ p ∈ derive_patterns now2 events,
      (upsert_patterns (upsert_patterns [] (derive_patterns now1 events))
          (derive_patterns now2 events)).filter
        (fun r => keyTriple r = keyTriple p) = [p]) := by
  by_cases h4 : 4 ≤ ask_explain_count events <;>
    by_cases h5 : 5 ≤ search_use_count events <;>
    by_cases h6 : 6 ≤ friction_count events <;>
    simp [derive_patterns, h4, h5, h6, upsert_patterns, upsertOne, keyTriple, patternCore,
      mkExplainPattern, mkSearchPattern, mkFrictionPattern, List.filter, List.any]

/-- Closed instance of `C9_upsert_idempotent`: after deriving the
search-habit pattern at time 5 and re-deriving at time 7, the key triple
holds exactly the second run's row. -/
theorem C9_witness :
    (upsert_patterns
        (upsert_patterns []
          (derive_patterns 5 (List.replicate 5 ⟨none, none, ["tool:search"], []⟩)))
        (derive_patterns 7 (List.replicate 5 ⟨none, none, ["tool:search"], []⟩))).filter
      (fun r => keyTriple r = keyTriple (mkSearchPattern 7 5)) = [mkSearchPattern 7 5] :=
  (C9_upsert_idempotent (List.replicate 5 ⟨none, none, ["tool:search"], []⟩) 5 7).2.2
    (mkSearchPattern 7 5)
    (by
      have hm : derive_patterns 7 (List.replicate 5 ⟨none, none, ["tool:search"], []⟩)
          = [mkSearchPattern 7 5] := rfl
      rw [hm]
      exact List.mem_singleton_self _)

/-! ## Theorems: composite score bounds (C1) -/

theorem roundTo_exists_int (n : ℕ) (q : ℚ) :
    ∃ k : ℤ, roundTo n q = (k : ℚ) / 10 ^ n :=
  ⟨pyRoundInt (q * 10 ^ n), rfl⟩

/-- C1: for every input, the composite score is in [0, 100] and is an
integer number of tenths, and each sub-score respects its ceiling: modules
≤ 35, self-learning in [0, 50] (never negative even with the -4 emotion
correction), usage ≤ 15. -/
theorem C1_slimheidsmeter_bounds (now : ℚ) (modules_raw : List ModuleRaw)
    (sl_raw : SelfLearningRaw) (users : List UserRaw) :
    0 ≤ calculate_slimheidsmeter now modules_raw sl_raw users ∧
    calculate_slimheidsmeter now modules_raw sl_raw users ≤ 100 ∧
    (∃ k : ℤ, calculate_slimheidsmeter now modules_raw sl_raw users = (k : ℚ) / 10) ∧
    score_modules (modules_raw.map toModuleStatus) ≤ 35 ∧
    0 ≤ score_self_learning (toSelfLearningStatus sl_raw) ∧
    score_self_learning (toSelfLearningStatus sl_raw) ≤ 50 ∧
    score_usage now (extract_last_session users) ≤ 15 := by
  have hmod : score_modules (modules_raw.map toModuleStatus) ≤ 35 := by
    rw [score_modules]
    split
    · norm_num
    · exact min_le_right _ _
  have hsl0 : 0 ≤ score_self_learning (toSelfLearningStatus sl_raw) :=
    le_max_left _ _
  have hsl1 : score_self_learning (toSelfLearningStatus sl_raw) ≤ 50 :=
    max_le (by norm_num) (min_le_right _ _)
  have husage : score_usage now (extract_last_session users) ≤ 15 := by
    cases h : (extract_last_session users).last_action with
    | none => simp [score_usage, h]
    | some t =>
      simp only [score_usage, h]
      exact min_le_right _ _
  have hcalc : calculate_slimheidsmeter now modules_raw sl_raw users =
      roundTo 1 (max 0 (min (score_modules (modules_raw.map toModuleStatus) +
        score_self_learning (toSelfLearningStatus sl_raw) +
        score_usage now (extract_last_session users)) 100)) := rfl
  have h0 : ((0 : ℤ) : ℚ) ≤ max 0 (min (score_modules (modules_raw.map toModuleStatus) +
      score_self_learning (toSelfLearningStatus sl_raw) +
      score_usage now (extract_last_session users)) 100) := by
    push_cast
    exact le_max_left _ _
  have h100 : max 0 (min (score_modules (modules_raw.map toModuleStatus) +
      score_self_learning (toSelfLearningStatus sl_raw) +
      score_usage now (extract_last_session users)) 100) ≤ ((100 : ℤ) : ℚ) := by
    push_cast
    exact max_le (by norm_num) (min_le_right _ _)
  obtain ⟨hlo, hhi⟩ := roundTo_mem_Icc 1 _ 0 100 h0 h100
  refine ⟨?_, ?_, ?_, hmod, hsl0, hsl1, husage⟩
  · rw [hcalc]
    simpa using hlo
  · rw [hcalc]
    simpa using hhi
  · obtain ⟨k, hk⟩ := roundTo_exists_int 1 (max 0 (min (score_modules (modules_raw.map toModuleStatus) +
      score_self_learning (toSelfLearningStatus sl_raw) +
      score_usage now (extract_last_session users)) 100))
    refine ⟨k, ?_⟩
    rw [hcalc, hk]
    norm_num

/-! ## Theorems: usage/recency sub-score (C8) -/

/-- The recency tier table, as the claim words it. -/
def spec_usage_points (hours : ℚ) : ℚ :=
  if hours ≤ 6 then 13
  else if hours ≤ 24 then 10
  else if hours ≤ 72 then 7
  else if hours ≤ 168 then 4
  else 0

/-- The usage sub-score as the claim describes it: take the most recent
parseable `last_action` across all users (the first user attaining the
maximum wins), award its recency tier plus a 2-point dev-minutes bonus,
capped at 15; when no user has a parseable timestamp the picked fallback
user necessarily lacks one, so the sub-score is 0. -/
def spec_usage_score (now : ℚ) (users : List UserRaw) : ℚ :=
  match (users.filterMap (fun u => u.last_action.toOption)).max? with
  | none => 0
  | some t =>
    match users.find? (fun u => u.last_action.toOption = some t) with
    | none => 0
    | some u =>
      min (spec_usage_points ((now - t) / 3600) +
        (if 60 ≤ u.estimated_dev_minutes then 2 else 0)) 15

/-- The (timestamp, user) pairs of the users with a parseable timestamp,
in iteration order. -/
def parsedPairs (users : List UserRaw) : List (ℚ × UserRaw) :=
  users.filterMap (fun u => u.last_action.toOption.map (fun t => (t, u)))

/-- The first candidate attaining the maximal timestamp. -/
def firstAtMax (cands : List (ℚ × UserRaw)) : Option (ℚ × UserRaw) :=
  match (cands.map Prod.fst).max? with
  | none => none
  | some m => cands.find? (fun c => c.1 = m)

theorem le_foldl_max (l : List ℚ) (a : ℚ) : a ≤ l.foldl max a := by
  induction l generalizing a with
  | nil => exact le_refl a
  | cons b bs ih => exact le_trans (le_max_left a b) (ih (max a b))

theorem firstAtMax_absorb (a b : ℚ × UserRaw) (rest : List (ℚ × UserRaw)) :
    firstAtMax (a :: b :: rest) = firstAtMax ((if a.1 < b.1 then b else a) :: rest) := by
  by_cases hab : a.1 < b.1
  · rw [if_pos hab]
    have hLHS : ((a :: b :: rest).map Prod.fst).max?
        = some (List.foldl max b.1 (rest.map Prod.fst)) := by
      show some (List.foldl max a.1 (b.1 :: rest.map Prod.fst)) = _
      rw [List.foldl_cons, max_eq_right (le_of_lt hab)]
    have hRHS : ((b :: rest).map Prod.fst).max?
        = some (List.foldl max b.1 (rest.map Prod.fst)) := rfl
    unfold firstAtMax
    rw [hLHS, hRHS]
    dsimp only
    have hne : ¬ (a.1 = List.foldl max b.1 (rest.map Prod.fst)) := by
      have := le_foldl_max (rest.map Prod.fst) b.1
      intro h
      rw [h] at hab
      linarith
    rw [List.find?_cons_of_neg _ (by simpa using hne)]
  · rw [if_neg hab]
    push_neg at hab
    have hLHS : ((a :: b :: rest).map Prod.fst).max?
        = some (List.foldl max a.1 (rest.map Prod.fst)) := by
      show some (List.foldl max a.1 (b.1 :: rest.map Prod.fst)) = _
      rw [List.foldl_cons, max_eq_left hab]
    have hRHS : ((a :: rest).map Prod.fst).max?
        = some (List.foldl max a.1 (rest.map Prod.fst)) := rfl
    unfold firstAtMax
    rw [hLHS, hRHS]
    dsimp only
    by_cases ha : a.1 = List.foldl max a.1 (rest.map Prod.fst)
    · rw [List.find?_cons_of_pos _ (by simpa using ha),
        List.find?_cons_of_pos _ (by simpa using ha)]
    · have h1 : a.1 ≤ List.foldl max a.1 (rest.map Prod.fst) :=
        le_foldl_max (rest.map Prod.fst) a.1
      have hb : ¬ (b.1 = List.foldl max a.1 (rest.map Prod.fst)) := by
        intro h
        exact ha (le_antisymm h1 (h ▸ hab))
      rw [List.find?_cons_of_neg _ (by simpa using ha),
        List.find?_cons_of_neg _ (by simpa using hb),
        List.find?_cons_of_neg _ (by simpa using ha)]

theorem foldl_bestStep_eq (users : List UserRaw) (acc : Option (ℚ × UserRaw)) :
    users.foldl bestStep acc = firstAtMax (acc.toList ++ parsedPairs users) := by
  induction users generalizing acc with
  | nil =>
    cases acc with
    | none => rfl
    | some p =>
      simp only [List.foldl_nil, parsedPairs, List.filterMap_nil, List.append_nil,
        Option.toList]
      unfold firstAtMax
      rw [show ([p].map Prod.fst).max? = some p.1 from rfl]
      dsimp only
      rw [List.find?_cons_of_pos _ (by simp)]
  | cons u us ih =>
    cases hu : u.last_action with
    | parsed t =>
      have hp : parsedPairs (u :: us) = (t, u) :: parsedPairs us := by
        simp [parsedPairs, List.filterMap_cons, hu, TsField.toOption]
      rw [List.foldl_cons, ih, hp]
      cases acc with
      | none =>
        have hbs : bestStep none u = some (t, u) := by simp [bestStep, hu]
        rw [hbs]
        simp [Option.toList]
      | some p =>
        obtain ⟨t0, u0⟩ := p
        have hbs : bestStep (some (t0, u0)) u
            = if t0 < t then some (t, u) else some (t0, u0) := by
          simp [bestStep, hu]
        rw [hbs]
        have habs := firstAtMax_absorb (t0, u0) (t, u) (parsedPairs us)
        simp only [Option.toList, List.cons_append, List.nil_append] at habs ⊢
        rw [habs]
        by_cases h : t0 < t <;> simp [h]
    | missing =>
      have hp : parsedPairs (u :: us) = parsedPairs us := by
        simp [parsedPairs, List.filterMap_cons, hu, TsField.toOption]
      have hbs : ∀ a, bestStep a u = a := by
        intro a
        cases a <;> simp [bestStep, hu]
      rw [List.foldl_cons, hbs, ih, hp]
    | unparseable =>
      have hp : parsedPairs (u :: us) = parsedPairs us := by
        simp [parsedPairs, List.filterMap_cons, hu, TsField.toOption]
      have hbs : ∀ a, bestStep a u = a := by
        intro a
        cases a <;> simp [bestStep, hu]
      rw [List.foldl_cons, hbs, ih, hp]

theorem parsedPairs_map_fst (users : List UserRaw) :
    (parsedPairs users).map Prod.fst
      = users.filterMap (fun u => u.last_action.toOption) := by
  induction users with
  | nil => rfl
  | cons u us ih =>
    cases hu : u.last_action <;>
      simp [parsedPairs, List.filterMap_cons, TsField.toOption, hu, ih] <;>
      exact ih

theorem parsedPairs_find (users : List UserRaw) (m : ℚ) :
    (parsedPairs users).find? (fun c => c.1 = m)
      = (users.find? (fun u => u.last_action.toOption = some m)).map (fun u => (m, u)) := by
  induction users with
  | nil => rfl
  | cons u us ih =>
    cases hu : u.last_action with
    | parsed t =>
      have hp : parsedPairs (u :: us) = (t, u) :: parsedPairs us := by
        simp [parsedPairs, List.filterMap_cons, hu, TsField.toOption]
      rw [hp]
      by_cases ht : t = m
      · subst ht
        rw [List.find?_cons_of_pos _ (by simp),
          List.find?_cons_of_pos
            (p := fun v : UserRaw => decide (v.last_action.toOption = some t)) _
            (by simp [hu, TsField.toOption])]
        rfl
      · rw [List.find?_cons_of_neg _ (by simpa using ht),
          List.find?_cons_of_neg
            (p := fun v : UserRaw => decide (v.last_action.toOption = some m)) _
            (by simp [hu, TsField.toOption, ht]),
          ih]
    | missing =>
      have hp : parsedPairs (u :: us) = parsedPairs us := by
        simp [parsedPairs, List.filterMap_cons, hu, TsField.toOption]
      rw [hp,
        List.find?_cons_of_neg
          (p := fun v : UserRaw => decide (v.last_action.toOption = some m)) _
          (by simp [hu, TsField.toOption]),
        ih]
    | unparseable =>
      have hp : parsedPairs (u :: us) = parsedPairs us := by
        simp [parsedPairs, List.filterMap_cons, hu, TsField.toOption]
      rw [hp,
        List.find?_cons_of_neg
          (p := fun v : UserRaw => decide (v.last_action.toOption = some m)) _
          (by simp [hu, TsField.toOption]),
        ih]

/-- C8: `_score_usage ∘ _extract_last_session` computes exactly the
claim's description: recency tiers 13/10/7/4/0 from the most recent
parseable user action across all users (first attaining user wins, its dev
minutes are used), +2 capped at 15 when dev minutes ≥ 60, and 0 when no
user has a parseable timestamp. -/
theorem C8_usage_score_spec (now : ℚ) (users : List UserRaw) :
    score_usage now (extract_last_session users) = spec_usage_score now users := by
  cases users with
  | nil => rfl
  | cons u0 us =>
    rw [extract_last_session, if_neg (by simp)]
    rw [foldl_bestStep_eq]
    simp only [Option.toList, List.nil_append]
    cases hmax : ((u0 :: us).filterMap (fun u => u.last_action.toOption)).max? with
    | none =>
      have hnil : (u0 :: us).filterMap (fun u => u.last_action.toOption) = [] :=
        List.max?_eq_none_iff.mp hmax
      have hpp : parsedPairs (u0 :: us) = [] := by
        have h := parsedPairs_map_fst (u0 :: us)
        rw [hnil] at h
        exact List.map_eq_nil_iff.mp h
      have hu0 : u0.last_action.toOption = none := by
        cases h : u0.last_action.toOption with
        | none => rfl
        | some t =>
          rw [List.filterMap_cons, h] at hnil
          simp at hnil
      rw [hpp]
      show score_usage now ⟨u0.last_action.toOption, u0.estimated_dev_minutes⟩ = _
      rw [hu0, spec_usage_score]
      simp only [hmax]
      rfl
    | some m =>
      have hmax' : ((parsedPairs (u0 :: us)).map Prod.fst).max? = some m := by
        rw [parsedPairs_map_fst, hmax]
      have hmem : m ∈ (u0 :: us).filterMap (fun u => u.last_action.toOption) :=
        List.max?_mem max_choice hmax
      obtain ⟨uW, huW, huWm⟩ := List.mem_filterMap.mp hmem
      obtain ⟨uStar, hfind⟩ : ∃ uStar,
          (u0 :: us).find? (fun u => u.last_action.toOption = some m) = some uStar := by
        have hsome : ((u0 :: us).find? (fun u => u.last_action.toOption = some m)).isSome := by
          rw [List.find?_isSome]
          exact ⟨uW, huW, by simpa using huWm⟩
        exact Option.isSome_iff_exists.mp hsome
      rw [firstAtMax, hmax']
      dsimp only
      rw [parsedPairs_find, hfind]
      rw [spec_usage_score]
      simp only [hmax, hfind]
      show score_usage now ⟨some m, uStar.estimated_dev_minutes⟩ = _
      rw [score_usage, spec_usage_points]
      simp only
      by_cases hdev : 60 ≤ uStar.estimated_dev_minutes
      · rw [if_pos hdev, if_pos hdev, min_assoc, min_self]
        rfl
      · rw [if_neg hdev, if_neg hdev, add_zero]
        rfl

/-! ## Theorems: feature extractor (C3, C4, C7) -/

/-- C3 counterexample: on "joo maat heb je een crypto update?" the intent
is NOT "crypto" and `contains_crypto` is NOT true — no entry of the crypto
keyword list (which does not include "crypto" or "crypto update") occurs in
the message. -/
theorem C3_counterexample :
    (score_message "" "joo maat heb je een crypto update?" []).intent.label ≠ "crypto" ∧
    (score_message "" "joo maat heb je een crypto update?" []).raw.contains_crypto ≠ true := by
  decide

/-- C3 (amended): on "joo maat heb je een crypto update?" with empty
history, the greeting heuristic ("joo maat") scores 2 while every keyword
intent scores 0, so the intent is "smalltalk" with confidence 2/5 and tag
"smalltalk", and `raw.contains_crypto` is false. -/
theorem C3_crypto_update_message :
    (score_message "" "joo maat heb je een crypto update?" []).intent.label = "smalltalk" ∧
    (score_message "" "joo maat heb je een crypto update?" []).intent.confidence = 0.4 ∧
    (score_message "" "joo maat heb je een crypto update?" []).intent.tags = ["smalltalk"] ∧
    (score_message "" "joo maat heb je een crypto update?" []).raw.contains_crypto = false := by
  with_unfolding_all decide

/-- C4 counterexample: two invocations of `score_message` on identical
`(message, history)` but at different wall-clock instants return different
Feature Vectors — they differ on `raw.timestamp`. -/
theorem C4_counterexample :
    score_message "2025-01-01T00:00:00Z" "joo" []
      ≠ score_message "2025-01-02T00:00:00Z" "joo" [] := by
  with_unfolding_all decide

/-- C4 (amended): `score_message` is deterministic in `(message, history)`
on every field except `raw.timestamp`, which records the wall-clock reading
of the invocation. -/
theorem C4_determinism_modulo_timestamp (t1 t2 message : String)
    (history : List String) :
    (score_message t1 message history).version = (score_message t2 message history).version ∧
    (score_message t1 message history).emotion = (score_message t2 message history).emotion ∧
    (score_message t1 message history).intent = (score_message t2 message history).intent ∧
    (score_message t1 message history).behavior = (score_message t2 message history).behavior ∧
    (score_message t1 message history).raw.length = (score_message t2 message history).raw.length ∧
    (score_message t1 message history).raw.word_count
      = (score_message t2 message history).raw.word_count ∧
    (score_message t1 message history).raw.exclamations
      = (score_message t2 message history).raw.exclamations ∧
    (score_message t1 message history).raw.question_marks
      = (score_message t2 message history).raw.question_marks ∧
    (score_message t1 message history).raw.uppercase_ratio
      = (score_message t2 message history).raw.uppercase_ratio ∧
    (score_message t1 message history).raw.contains_crypto
      = (score_message t2 message history).raw.contains_crypto ∧
    (score_message t1 message history).raw.contains_money
      = (score_message t2 message history).raw.contains_money ∧
    (score_message t1 message history).raw.contains_time
      = (score_message t2 message history).raw.contains_time ∧
    (score_message t1 message history).raw.timestamp = t1 :=
  ⟨rfl, rfl, rfl, rfl, rfl, rfl, rfl, rfl, rfl, rfl, rfl, rfl, rfl⟩

/-- C7 counterexample: on the empty message the extractor does NOT return
the claimed minimum-signal defaults: the emotion label is "neutraal" (the
label "onbekend" exists only in an import-failure stub in `api/chat.py`,
not in the scoring engine), and behavior.importance is 0.2, not 0. -/
theorem C7_counterexample :
    (score_message "" "" []).emotion.label = "neutraal" ∧
    (score_message "" "" []).emotion.label ≠ "onbekend" ∧
    (score_message "" "" []).behavior.importance = 0.2 ∧
    (score_message "" "" []).behavior.importance ≠ 0 := by
  with_unfolding_all decide

set_option maxRecDepth 16000
set_option maxHeartbeats 2000000

/-- C7 (amended): `score_message` is total, and on an empty message text
with any history it returns: emotion ("neutraal", all zeros), intent
("smalltalk", confidence 0, no tags), behavior importance 0.2, novelty 1
(empty history) or 0, habit_strength 0.1 (empty history) or 0, risk 0, and
all-zero raw counters. -/
theorem C7_empty_message_defaults (ts : String) (history : List String) :
    (score_message ts "" history).emotion = ⟨"neutraal", 0, 0, 0⟩ ∧
    (score_message ts "" history).intent = ⟨"smalltalk", 0, []⟩ ∧
    (score_message ts "" history).behavior =
      ⟨0.2, if history = [] then 1 else 0, if history = [] then 0.1 else 0, 0⟩ ∧
    (score_message ts "" history).raw = ⟨0, 0, 0, 0, 0, false, false, false, ts⟩ := by
  refine ⟨?_, ?_, ?_, ?_⟩
  · have he : (score_message ts "" history).emotion = detect_emotion "" := rfl
    rw [he]
    with_unfolding_all decide
  · have hi : (score_message ts "" history).intent = detect_intent "" := rfl
    rw [hi]
    with_unfolding_all decide
  · have hb : (score_message ts "" history).behavior
        = BehaviorScore.mk
            (estimate_importance "" (detect_intent "") (detect_emotion "")
              (extract_raw_stats ts ""))
            (estimate_novelty "" history)
            (detect_habit_strength "" history)
            (estimate_risk "" (detect_intent "") (detect_emotion "")
              (extract_raw_stats ts "")) := rfl
    have himp0 : estimate_importance "" (detect_intent "") (detect_emotion "")
        (extract_raw_stats ts "")
        = estimate_importance "" (detect_intent "") (detect_emotion "")
          (extract_raw_stats "" "") := rfl
    have himp : estimate_importance "" (detect_intent "") (detect_emotion "")
        (extract_raw_stats "" "") = 0.2 := by
      with_unfolding_all decide
    have hrisk0 : estimate_risk "" (detect_intent "") (detect_emotion "")
        (extract_raw_stats ts "")
        = estimate_risk "" (detect_intent "") (detect_emotion "")
          (extract_raw_stats "" "") := rfl
    have hrisk : estimate_risk "" (detect_intent "") (detect_emotion "")
        (extract_raw_stats "" "") = 0 := by
      with_unfolding_all decide
    rw [hb, himp0, himp, hrisk0, hrisk]
    cases history with
    | nil =>
      have hn : estimate_novelty "" ([] : List String) = 1 := rfl
      have hh : detect_habit_strength "" ([] : List String) = 0.1 := rfl
      rw [hn, hh, if_pos rfl, if_pos rfl]
    | cons h hs =>
      have hn : estimate_novelty "" (h :: hs) = 0 := rfl
      have hh : detect_habit_strength "" (h :: hs) = 0 := rfl
      rw [hn, hh, if_neg (by simp), if_neg (by simp)]
  · have hr : (score_message ts "" history).raw = extract_raw_stats ts "" := rfl
    have hr2 : extract_raw_stats ts ""
        = ⟨0, 0, 0, 0, roundTo 3 (((0 : ℕ) : ℚ) / ((1 : ℕ) : ℚ)), false, false, false, ts⟩ :=
      rfl
    have hur : roundTo 3 (((0 : ℕ) : ℚ) / ((1 : ℕ) : ℚ)) = 0 := by
      with_unfolding_all decide
    rw [hr, hr2, hur]

/-! ## Theorems: explain-preference value shapes (C10) -/

theorem string_eta (s : String) : String.mk s.data = s := rfl

theorem skipWs_cons_of_neg (c : Char) (l : List Char) (h : isPySpace c = false) :
    skipWs (c :: l) = c :: l := by
  simp [skipWs, h]

theorem strBody_append (l r : List Char) (hq : '"' ∉ l) (hbs : '\\' ∉ l) :
    strBody (l ++ '"' :: r) = some (l, r) := by
  induction l with
  | nil => simp [strBody]
  | cons c cs ih =>
    have hc : ¬ (c = '"') := fun h => hq (h ▸ List.mem_cons_self c cs)
    have hcb : ¬ (c = '\\') := fun h => hbs (h ▸ List.mem_cons_self c cs)
    have hq' : '"' ∉ cs := fun h => hq (List.mem_cons_of_mem c h)
    have hbs' : '\\' ∉ cs := fun h => hbs (List.mem_cons_of_mem c h)
    simp [strBody, hc, hcb, ih hq' hbs']

theorem pyStrip_brace (M : List Char) :
    pyStrip ⟨lbrace :: (M ++ [rbrace])⟩ = ⟨lbrace :: (M ++ [rbrace])⟩ := by
  unfold pyStrip
  congr 1
  rw [List.dropWhile_cons, if_neg (by decide)]
  rw [show (lbrace :: (M ++ [rbrace])).reverse = rbrace :: (M.reverse ++ [lbrace]) by
    simp]
  rw [List.dropWhile_cons, if_neg (by decide)]
  simp

theorem roundTo_zero (n : ℕ) : roundTo n 0 = 0 := by
  unfold roundTo pyRoundInt
  norm_num

theorem parsePairs_single (fuel : ℕ) (lvl : String)
    (hq : '"' ∉ lvl.data) (hbs : '\\' ∉ lvl.data) :
    parsePairs (fuel + 1)
      ('"' :: 'l' :: 'e' :: 'v' :: 'e' :: 'l' :: '"' :: ':' :: ' ' :: '"'
        :: (lvl.data ++ '"' :: rbrace :: []))
      = some ([("level", PyPrim.pstr lvl)], []) := by
  have hv := strBody_append lvl.data (rbrace :: []) hq hbs
  unfold parsePairs
  simp +decide [skipWs, isPySpace, parseJStr, strBody, hv, string_eta]

/-- C10: `_extract_level` maps the three value shapes — dict, plain string,
stringified JSON object — to the same lowercased level; a level outside
high/medium/low has base 0.0, and whenever a (preference, explain_level)
pattern is present `compute` returns status "ok" with score 0.0 for such an
unknown level. -/
theorem C10_value_shapes (lvl : String)
    (hne : lvl ≠ "")
    (hstrip : pyStrip lvl = lvl)
    (hq : '"' ∉ lvl.data) (hbs : '\\' ∉ lvl.data)
    (hbrace : pyStartsWith lvl "\x7b" = false) :
    extract_level (PVal.vdict [("level", PyPrim.pstr lvl)]) = pyLower lvl ∧
    extract_level (PVal.vstr lvl) = pyLower lvl ∧
    extract_level (PVal.vstr ("\x7b\"level\": \"" ++ lvl ++ "\"\x7d")) = pyLower lvl ∧
    (pyLower lvl ∉ (["high", "medium", "low"] : List String) →
      level_to_base (pyLower lvl) = 0 ∧
      ∀ (pats : List MLPattern) (p : MLPattern),
        find_explain_level_pattern pats = some p →
        extract_level p.value = pyLower lvl →
        (explain_preference_compute pats).status = "ok" ∧
        (explain_preference_compute pats).score = 0) := by
  have hdata : ("\x7b\"level\": \"" ++ lvl ++ "\"\x7d").data
      = lbrace :: (('"' :: 'l' :: 'e' :: 'v' :: 'e' :: 'l' :: '"' :: ':' :: ' ' :: '"'
          :: (lvl.data ++ ['"'])) ++ [rbrace]) := by
    rw [String.data_append, String.data_append]
    rw [show ("\x7b\"level\": \"").data
        = [lbrace, '"', 'l', 'e', 'v', 'e', 'l', '"', ':', ' ', '"'] by decide]
    rw [show ("\"\x7d").data = ['"', rbrace] by decide]
    simp
  refine ⟨?_, ?_, ?_, ?_⟩
  · show (if pyStrip lvl ≠ "" then pyLower (pyStrip lvl) else "unknown") = pyLower lvl
    rw [hstrip, if_pos hne]
  · have hparse : try_parse_json_object lvl = none := by
      unfold try_parse_json_object
      rw [hstrip, if_neg (by simp [hbrace])]
    simp only [extract_level, hstrip, hparse, if_neg hne]
  · -- the stringified-JSON shape
    set R : String := "\x7b\"level\": \"" ++ lvl ++ "\"\x7d" with hR
    set M : List Char := '"' :: 'l' :: 'e' :: 'v' :: 'e' :: 'l' :: '"' :: ':' :: ' ' :: '"'
      :: (lvl.data ++ ['"']) with hM
    have hdataM : R.data = lbrace :: (M ++ [rbrace]) := hdata
    have hstripR : pyStrip R = R := by
      calc pyStrip R = pyStrip ⟨lbrace :: (M ++ [rbrace])⟩ := by rw [← hdataM, string_eta]
      _ = ⟨lbrace :: (M ++ [rbrace])⟩ := pyStrip_brace M
      _ = R := by rw [← hdataM, string_eta]
    have hRne : ¬ (R = "") := by
      intro h
      rw [h] at hdataM
      exact absurd hdataM (by simp)
    have hstart : pyStartsWith R "\x7b" = true := by
      unfold pyStartsWith
      rw [hdataM]
      rw [show ("\x7b").data = [lbrace] by decide]
      simp [List.isPrefixOf]
    have hend : pyEndsWith R "\x7d" = true := by
      unfold pyEndsWith
      rw [hdataM]
      rw [show ("\x7d").data = [rbrace] by decide]
      simp [List.isSuffixOf, List.isPrefixOf]
    have hpairs := parsePairs_single (M ++ [rbrace]).length lvl hq hbs
    have hparse : parseObj R.data = some [("level", PyPrim.pstr lvl)] := by
      rw [hdataM]
      unfold parseObj
      rw [skipWs_cons_of_neg _ _ (by decide)]
      rw [show (M ++ [rbrace]) = '"' :: ('l' :: 'e' :: 'v' :: 'e' :: 'l' :: '"' :: ':' :: ' '
        :: '"' :: (lvl.data ++ '"' :: rbrace :: [])) by simp [hM]]
      dsimp only
      rw [if_neg (by decide : ¬ (lbrace ≠ lbrace))]
      rw [skipWs_cons_of_neg _ _ (by decide)]
      dsimp only
      rw [if_neg (by decide : ¬ ('"' = rbrace))]
      rw [parsePairs_single _ lvl hq hbs]
      rfl
    have htp : try_parse_json_object R = some [("level", PyPrim.pstr lvl)] := by
      unfold try_parse_json_object
      rw [hstripR, if_pos ⟨hstart, hend⟩, hparse]
    simp only [extract_level, hstripR, if_neg hRne, htp]
    simp +decide [List.lookup, hstrip, hne]
  · intro hlow
    have h1 : ¬ (pyLower lvl = "high") := fun h => hlow (by rw [h]; simp)
    have h2 : ¬ (pyLower lvl = "medium") := fun h => hlow (by rw [h]; simp)
    have h3 : ¬ (pyLower lvl = "low") := fun h => hlow (by rw [h]; simp)
    have hbase : level_to_base (pyLower lvl) = 0 := by
      unfold level_to_base
      rw [if_neg h1, if_neg h2, if_neg h3]
    refine ⟨hbase, ?_⟩
    intro pats p hfind hlev
    have hbase' : level_to_base (extract_level p.value) = 0 := by rw [hlev, hbase]
    unfold explain_preference_compute
    rw [hfind]
    refine ⟨rfl, ?_⟩
    show roundTo 4 (clamp01 (level_to_base (extract_level p.value)
      * normalize_confidence p.confidence)) = 0
    rw [hbase', zero_mul]
    rw [show clamp01 0 = 0 by unfold clamp01; norm_num]
    exact roundTo_zero 4

/-- Closed instance of `C10_value_shapes` at the level string "Unknown". -/
theorem C10_witness :
    extract_level (PVal.vdict [("level", PyPrim.pstr "Unknown")]) = pyLower "Unknown" ∧
    extract_level (PVal.vstr "Unknown") = pyLower "Unknown" ∧
    extract_level (PVal.vstr "\x7b\"level\": \"Unknown\"\x7d") = pyLower "Unknown" ∧
    level_to_base (pyLower "Unknown") = 0 ∧
    (explain_preference_compute
      [⟨some "preference", some "explain_level", PVal.vstr "Unknown", 0⟩]).status = "ok" ∧
    (explain_preference_compute
      [⟨some "preference", some "explain_level", PVal.vstr "Unknown", 0⟩]).score = 0 :=
  have h := C10_value_shapes "Unknown" (by decide) (by decide) (by decide) (by decide)
    (by decide)
  have h4 := h.2.2.2 (by decide)
  have hfind : find_explain_level_pattern
      [⟨some "preference", some "explain_level", PVal.vstr "Unknown", 0⟩]
      = some ⟨some "preference", some "explain_level", PVal.vstr "Unknown", 0⟩ := by
    with_unfolding_all decide
  have hsc := h4.2 [⟨some "preference", some "explain_level", PVal.vstr "Unknown", 0⟩]
    ⟨some "preference", some "explain_level", PVal.vstr "Unknown", 0⟩ hfind h.2.1
  ⟨h.1, h.2.1, h.2.2.1, h4.1, hsc.1, hsc.2⟩

end Loesoe
